import Mathlib

/-!
Shallow embedding of the movement-sequence invariant engine and the geofence
analytics engine of the animal-tracking service (Sources/routers/animals,
Sources/routers/areas, Sources/models).

Conventions of the embedding:
* database ids and timestamps are `Nat`; timestamps of visited locations are
  represented by list order: the global sighting store is kept in chronological
  (oldest-first) creation order, so `order_by("date_time_of_visit_location_point")`
  on an animal's related rows is `trailOf` (a filter of the global list);
* `Location` rows carry only their id: coordinates are plumbing for the trail
  engine (they are compared only through ids); the geometry adapter used by the
  area validator is embedded separately on axis-aligned rectangles;
* float attributes (`weight`, `length`, `height`) are carried as `Rat`: the
  engine only copies them, never computes with them;
* a raised `HTTPException` / `DoesNotExist` is an `Except.error`.
-/

inductive AnimalLifeStatus
  | ALIVE
  | DEAD
deriving DecidableEq, Repr

inductive AnimalGender
  | MALE
  | FEMALE
  | OTHER
deriving DecidableEq, Repr

/-- models.orm.Location: only the primary key is relevant to the sequence
invariant engine (all comparisons in the routers are by id). -/
structure Location where
  id : Nat
deriving DecidableEq, Repr

/-- models.orm.AnimalVisitedLocation: one sighting row.  The creation
timestamp is represented by the row's position in the global store list
(oldest first), matching `auto_now_add` plus `order_by`. -/
structure AnimalVisitedLocation where
  id : Nat
  animal_id : Nat
  location_point_id : Nat
deriving DecidableEq, Repr

/-- models.orm.Animal (the fields the engine reads or writes). -/
structure Animal where
  id : Nat
  weight : Rat
  length : Rat
  height : Rat
  gender : AnimalGender
  life_status : AnimalLifeStatus
  chipper_id : Nat
  chipping_location_id : Nat
  chipping_date_time : Nat
  death_date_time : Option Nat
deriving DecidableEq, Repr

/-- Error outcomes of the routers: HTTPException 400 with its `detail`
string, 404, 409. -/
inductive ApiError
  | badRequest (detail : String)
  | notFound
  | conflict
deriving DecidableEq, Repr

/-- A call was rejected (raised). -/
def rejected {α : Type} (r : Except ApiError α) : Prop :=
  ∃ e, r = Except.error e

/-- The animal's trail: its sighting rows in chronological order
(`animal.visited_locations` ordered by visit timestamp). -/
def trailOf (visited : List AnimalVisitedLocation) (animal_id : Nat) :
    List AnimalVisitedLocation :=
  visited.filter (fun v => v.animal_id == animal_id)

/-- routers/animals/locations.py `add_animal_location` (lines 48-82).
Checks, in source order: dead animal; location lookup (`Location.get`);
empty trail repeating the chipping location; non-empty trail repeating the
last visited location; otherwise creates one sighting row (appended to the
store: `auto_now_add` stamps it newest). -/
def add_animal_location (locations : List Location)
    (visited : List AnimalVisitedLocation) (animal : Animal)
    (location_id : Nat) (fresh_id : Nat) :
    Except ApiError (List AnimalVisitedLocation × AnimalVisitedLocation) :=
  if animal.life_status = AnimalLifeStatus.DEAD then
    Except.error (ApiError.badRequest "animal is dead")
  else
    match locations.find? (fun l => l.id == location_id) with
    | none => Except.error ApiError.notFound
    | some location =>
      let trail := trailOf visited animal.id
      if trail.length = 0 ∧ location.id = animal.chipping_location_id then
        Except.error (ApiError.badRequest "repeating chipping location")
      else if 0 < trail.length ∧
          trail.getLast?.map (fun v => v.location_point_id) = some location_id then
        Except.error (ApiError.badRequest "repeating location")
      else
        let created : AnimalVisitedLocation :=
          ⟨fresh_id, animal.id, location_id⟩
        Except.ok (visited ++ [created], created)

/-- Deleting the row with primary key `vid` from the store. -/
def deleteById (store : List AnimalVisitedLocation) (vid : Nat) :
    List AnimalVisitedLocation :=
  store.filter (fun v => v.id ≠ vid)

/-- routers/animals/locations.py `delete_animal_location` (lines 85-106).
`AnimalVisitedLocation.get` on the global store, ownership check, then the
cascade: when the trail has at least two entries, the target is the oldest
one and the second-oldest sits at the chipping location, the second-oldest
row is deleted as well.  Returns the new store together with the list of
deleted row ids (the issued store mutations). -/
def delete_animal_location (visited : List AnimalVisitedLocation)
    (animal : Animal) (location_id : Nat) :
    Except ApiError (List AnimalVisitedLocation × List Nat) :=
  match visited.find? (fun v => v.id == location_id) with
  | none => Except.error ApiError.notFound
  | some location =>
    if location.animal_id ≠ animal.id then Except.error ApiError.notFound
    else
      match trailOf visited animal.id with
      | v0 :: v1 :: _ =>
        if location_id = v0.id ∧
            animal.chipping_location_id = v1.location_point_id then
          Except.ok (deleteById (deleteById visited v1.id) location_id,
            [v1.id, location_id])
        else
          Except.ok (deleteById visited location_id, [location_id])
      | _ => Except.ok (deleteById visited location_id, [location_id])

/-- models.pydantic.UpdateVisitedLocation. -/
structure UpdateVisitedLocation where
  visited_location_point_id : Nat
  location_point_id : Nat
deriving DecidableEq, Repr

/-- routers/animals/locations.py `update_animal_location` (lines 109-163).
Source order of the checks: new location lookup, sighting lookup, "same
location" by id, ownership (404), the redundant object-equality repeat of
the same-location check, oldest-entry-vs-chipping-location, repeat with the
previous entry, repeat with the next entry; on success the row's
`location_point` is replaced and saved. -/
def update_animal_location (locations : List Location)
    (visited : List AnimalVisitedLocation) (animal : Animal)
    (upd : UpdateVisitedLocation) :
    Except ApiError (List AnimalVisitedLocation × AnimalVisitedLocation) :=
  match locations.find? (fun l => l.id == upd.location_point_id) with
  | none => Except.error ApiError.notFound
  | some new_location =>
    match visited.find? (fun v => v.id == upd.visited_location_point_id) with
    | none => Except.error ApiError.notFound
    | some visited_location =>
      if new_location.id = visited_location.location_point_id then
        Except.error (ApiError.badRequest "same location")
      else if visited_location.animal_id ≠ animal.id then
        Except.error ApiError.notFound
      else if visited_location.location_point_id = new_location.id then
        -- source line 130 repeats the same-location comparison; unreachable
        Except.error (ApiError.badRequest "")
      else
        let sorted := trailOf visited animal.id
        match sorted with
        | [] => Except.error ApiError.notFound
          -- unreachable: the target row belongs to the animal
        | s0 :: _ =>
          if s0.id = visited_location.id ∧
              new_location.id = animal.chipping_location_id then
            Except.error (ApiError.badRequest "")
          else
            let visited_index :=
              sorted.findIdx (fun v => v.id == visited_location.id)
            if 0 < visited_index ∧
                (sorted.get? (visited_index - 1)).map
                  (fun v => v.location_point_id) = some new_location.id then
              Except.error
                (ApiError.badRequest "repeating location with the previous one")
            else if visited_index < sorted.length - 1 ∧
                (sorted.get? (visited_index + 1)).map
                  (fun v => v.location_point_id) = some new_location.id then
              Except.error
                (ApiError.badRequest "repeating location with the next one")
            else
              let updated : AnimalVisitedLocation :=
                { visited_location with location_point_id := new_location.id }
              Except.ok
                (visited.map (fun v =>
                  if v.id = visited_location.id then
                    { v with location_point_id := new_location.id }
                  else v),
                 updated)

/-- models.pydantic.UpdateAnimal: the attribute payload of the animal
update.  All fields are required, so `dict(exclude_unset=True)` carries all
of them; `death_date_time` is not part of the payload. -/
structure UpdateAnimal where
  weight : Rat
  length : Rat
  height : Rat
  gender : AnimalGender
  life_status : AnimalLifeStatus
  chipper_id : Nat
  chipping_location_id : Nat
deriving DecidableEq, Repr

/-- routers/animals/__init__.py `update_animal` (lines 66-101).  Source
order: DEAD-to-ALIVE rejection; first-trail-entry vs new chipping location;
existence checks of the referenced location and account; application of all
payload attributes; automatic death timestamp when the resulting status is
DEAD and none is set; save.  `now` is the wall-clock reading used by
`datetime.now`. -/
def update_animal (locations : List Location) (accounts : List Nat)
    (visited : List AnimalVisitedLocation) (animal : Animal)
    (new_animal : UpdateAnimal) (now : Nat) : Except ApiError Animal :=
  if animal.life_status = AnimalLifeStatus.DEAD ∧
      new_animal.life_status = AnimalLifeStatus.ALIVE then
    Except.error (ApiError.badRequest "animal is dead")
  else
    let trail := trailOf visited animal.id
    if trail.head?.map (fun v => v.location_point_id) =
        some new_animal.chipping_location_id then
      Except.error (ApiError.badRequest "has same chipping location")
    else if (locations.find?
        (fun l => l.id == new_animal.chipping_location_id)).isNone then
      Except.error ApiError.notFound
    else if ¬ accounts.contains new_animal.chipper_id then
      Except.error ApiError.notFound
    else
      let updated : Animal :=
        { animal with
          weight := new_animal.weight
          length := new_animal.length
          height := new_animal.height
          gender := new_animal.gender
          life_status := new_animal.life_status
          chipper_id := new_animal.chipper_id
          chipping_location_id := new_animal.chipping_location_id }
      let final : Animal :=
        if updated.life_status = AnimalLifeStatus.DEAD ∧
            updated.death_date_time = none then
          { updated with death_date_time := some now }
        else updated
      Except.ok final

/-- models.orm.AnimalType. -/
structure AnimalType where
  id : Nat
  type : String
deriving DecidableEq, Repr

/-- routers/animals/animal_types.py `update_animal_type` (lines 26-43).
Lookup of the new type in the global type store, lookup of the old type
among the animal's types, conflict when the new type is already attached;
on success the old id is removed and the new id added: two m2m store
mutations, returned as the second component. -/
def update_animal_type (all_types : List AnimalType)
    (animal_types : List Nat) (old_type_id new_type_id : Nat) :
    Except ApiError (List Nat × Nat) :=
  match all_types.find? (fun t => t.id == new_type_id) with
  | none => Except.error ApiError.notFound
  | some new_type =>
    match animal_types.find? (fun t => t == old_type_id) with
    | none => Except.error ApiError.notFound
    | some old_type =>
      if animal_types.contains new_type.id then
        Except.error ApiError.conflict
      else
        Except.ok ((animal_types.filter (fun t => t ≠ old_type)) ++
          [new_type.id], 2)

/-- Modelled from the spec: models.pydantic.VisitedLocationInfo is absent
from src (only its constructor calls in analytics.py are); two booleans per
position of the position-info sequence. -/
structure VisitedLocationInfo where
  is_in_dates : Bool
  is_in_area : Bool
deriving DecidableEq, Repr

/-- Modelled from the spec: models.pydantic.AnimalTypeAnalytics is absent
from src; per-type counters start at zero and are incremented by the
analytics loop. -/
structure AnimalTypeAnalytics where
  animal_type : String
  animal_type_id : Nat
  quantity_animals : Nat
  animals_arrived : Nat
  animals_gone : Nat
deriving DecidableEq, Repr

/-- Modelled from the spec: models.pydantic.AreaAnalytics is absent from
src; aggregate counters start at zero. -/
structure AreaAnalytics where
  total_quantity_animals : Nat
  total_animals_arrived : Nat
  total_animals_gone : Nat
  animals_analytics : List AnimalTypeAnalytics
deriving DecidableEq, Repr

/-- One loop iteration of routers/areas/analytics.py `get_analytics`
(lines 94-102), over one adjacent pair `(fst, snd)`; the state is
`(is_in_area, is_arrived, is_gone)`. -/
def get_analytics_step (st : Bool × Bool × Bool)
    (p : VisitedLocationInfo × VisitedLocationInfo) : Bool × Bool × Bool :=
  if p.2.is_in_area then
    (true, if p.2.is_in_dates then true else st.2.1, st.2.2)
  else
    (false, st.2.1,
      if p.2.is_in_dates && p.1.is_in_area then true else st.2.2)

/-- routers/areas/analytics.py `get_analytics` (lines 88-103): reduce the
position-info sequence pairwise.  The source indexes position 0 directly;
the empty sequence (on which the source would raise) is defaulted. -/
def get_analytics (visited_locations_info : List VisitedLocationInfo) :
    Bool × Bool × Bool :=
  (visited_locations_info.zip visited_locations_info.tail).foldl
    get_analytics_step
    ((visited_locations_info.head?.map
      (fun v => v.is_in_area)).getD false, false, false)

/-- One sighting as the analytics engine sees it: the visited location id
and the visit timestamp (a day number; `.date()` granularity). -/
structure VisitRecord where
  location_point_id : Nat
  date_time : Nat
deriving DecidableEq, Repr

/-- One candidate animal as consumed by the analytics loop: chipping data,
attached types, and the trail oldest-first. -/
structure AnalyticsAnimal where
  chipping_location_id : Nat
  chipping_date_time : Nat
  animal_types : List AnimalType
  visits : List VisitRecord
deriving DecidableEq, Repr

/-- The `is_in_dates` flag of analytics.py (lines 69-71 and 79-81):
strictly later than `start_date`, or true when no start date is given. -/
def in_dates (start_date : Option Nat) (d : Nat) : Bool :=
  match start_date with
  | none => true
  | some s => s < d

/-- routers/areas/analytics.py `get_visited_locations_info` (lines 55-85):
filter the trail by `end_date`, tag each position with its two booleans,
and prepend the chipping location as position 0. -/
def get_visited_locations_info (animal : AnalyticsAnimal)
    (start_date end_date : Option Nat) (locations_in_area : List Nat) :
    List VisitedLocationInfo :=
  let vs :=
    match end_date with
    | none => animal.visits
    | some e => animal.visits.filter (fun v => v.date_time ≤ e)
  ⟨in_dates start_date animal.chipping_date_time,
    locations_in_area.contains animal.chipping_location_id⟩ ::
  vs.map (fun v =>
    ⟨in_dates start_date v.date_time,
      locations_in_area.contains v.location_point_id⟩)

/-- routers/areas/analytics.py `add_type_stats` (lines 25-34): register the
type with zero counters unless already present.  The Python dict keeps
insertion order; it is embedded as an association list. -/
def add_type_stats (type_to_analytics : List AnimalTypeAnalytics)
    (current_animal_type : AnimalType) : List AnimalTypeAnalytics :=
  if type_to_analytics.any
      (fun e => e.animal_type_id == current_animal_type.id) then
    type_to_analytics
  else
    type_to_analytics ++
      [⟨current_animal_type.type, current_animal_type.id, 0, 0, 0⟩]

/-- Boolean-to-counter increment (`+= is_in_area` on Python ints). -/
def b2n (b : Bool) : Nat := if b then 1 else 0

/-- The three `+=` lines on one type entry (analytics.py lines 137-139). -/
def bump_type (m : List AnimalTypeAnalytics) (tid : Nat)
    (is_in_area is_arrived is_gone : Bool) : List AnimalTypeAnalytics :=
  m.map (fun e =>
    if e.animal_type_id = tid then
      { e with
        quantity_animals := e.quantity_animals + b2n is_in_area
        animals_arrived := e.animals_arrived + b2n is_arrived
        animals_gone := e.animals_gone + b2n is_gone }
    else e)

/-- The body of the per-animal loop of `get_area_analytics`
(analytics.py lines 124-139). -/
def analytics_animal_step (start_date end_date : Option Nat)
    (locations_in_area : List Nat)
    (st : AreaAnalytics × List AnimalTypeAnalytics)
    (animal : AnalyticsAnimal) :
    AreaAnalytics × List AnimalTypeAnalytics :=
  let info := get_visited_locations_info animal start_date end_date
    locations_in_area
  let flags := get_analytics info
  let agg :=
    { st.1 with
      total_quantity_animals := st.1.total_quantity_animals + b2n flags.1
      total_animals_arrived := st.1.total_animals_arrived + b2n flags.2.1
      total_animals_gone := st.1.total_animals_gone + b2n flags.2.2 }
  let m := animal.animal_types.foldl
    (fun m t => bump_type (add_type_stats m t) t.id flags.1 flags.2.1 flags.2.2)
    st.2
  (agg, m)

/-- routers/areas/analytics.py `get_area_analytics` (lines 108-142): the
candidate-animal loop and the final breakdown list.  The candidate set,
the resolved in-area location ids and the per-animal trails are inputs
(they come from the store and the geometry adapter). -/
def get_area_analytics (animals_in_area : List AnalyticsAnimal)
    (start_date end_date : Option Nat) (locations_in_area : List Nat) :
    AreaAnalytics :=
  let st := animals_in_area.foldl
    (analytics_animal_step start_date end_date locations_in_area)
    (⟨0, 0, 0, []⟩, [])
  { st.1 with animals_analytics := st.2 }

/-- The candidate pre-filter of analytics.py (lines 119-123): a sighting in
the area not later than `end_date`, or an in-area chipping location. -/
def is_candidate (animal : AnalyticsAnimal) (end_date : Option Nat)
    (locations_in_area : List Nat) : Bool :=
  animal.visits.any (fun v =>
    locations_in_area.contains v.location_point_id &&
    (match end_date with
     | none => true
     | some e => v.date_time ≤ e)) ||
  locations_in_area.contains animal.chipping_location_id

/-- An axis-aligned rectangle with integer coordinates: the fragment of the
shapely polygon algebra on which the area validator is embedded exactly
(`xmin < xmax`, `ymin < ymax` for a nondegenerate rectangle). -/
structure Rect where
  xmin : Int
  xmax : Int
  ymin : Int
  ymax : Int
deriving DecidableEq, Repr

/-- Point-set inclusion of closed rectangles: `a` is a subset of `b`. -/
def rect_subset (a b : Rect) : Bool :=
  decide (b.xmin ≤ a.xmin) && decide (a.xmax ≤ b.xmax) &&
  decide (b.ymin ≤ a.ymin) && decide (a.ymax ≤ b.ymax)

/-- shapely `equals` on nondegenerate axis-aligned rectangles: equal point
sets, i.e. equal coordinates. -/
def rect_equals (a b : Rect) : Bool :=
  a == b

/-- The interiors of the two rectangles intersect (2-dimensional
intersection). -/
def rect_interiors_intersect (a b : Rect) : Bool :=
  decide (max a.xmin b.xmin < min a.xmax b.xmax) &&
  decide (max a.ymin b.ymin < min a.ymax b.ymax)

/-- shapely `overlaps` on nondegenerate axis-aligned rectangles: the
interiors intersect and neither rectangle is a subset of the other.
Boundary-touching rectangles have a 1-dimensional intersection and are NOT
overlapping in the DE-9IM sense shapely implements. -/
def rect_overlaps (a b : Rect) : Bool :=
  rect_interiors_intersect a b && !rect_subset a b && !rect_subset b a

/-- shapely `contains` on nondegenerate axis-aligned rectangles: `b` lies
inside `a` (and their interiors intersect, which inclusion of nondegenerate
rectangles already gives). -/
def rect_contains (a b : Rect) : Bool :=
  rect_subset b a

/-- The closed rectangles have a common point. -/
def rect_closures_intersect (a b : Rect) : Bool :=
  decide (max a.xmin b.xmin ≤ min a.xmax b.xmax) &&
  decide (max a.ymin b.ymin ≤ min a.ymax b.ymax)

/-- The two rectangles share a boundary: they touch (common points, but
disjoint interiors) along a segment, not just at a corner point. -/
def rect_shares_boundary (a b : Rect) : Bool :=
  rect_closures_intersect a b && !rect_interiors_intersect a b &&
  (decide (max a.xmin b.xmin < min a.xmax b.xmax) ||
   decide (max a.ymin b.ymin < min a.ymax b.ymax))

/-- models/orm.py `validate_area` (lines 153-188), new-area case: the
saved polygon must not equal, overlap, contain or be contained in any
other stored area's polygon (`true` = the save is accepted, an exception
branch = `false`).  The source's `instance` parameter is renamed
`new_area` (`instance` is a Lean keyword). -/
def validate_area (new_area : Rect) (other_areas : List Rect) : Bool :=
  other_areas.all (fun other =>
    !rect_equals new_area other &&
    !rect_overlaps new_area other &&
    !rect_contains new_area other &&
    !rect_contains other new_area)

/-- The write-time discipline across the whole store: every area was
validated against all areas present when it was saved. -/
def areas_consistent : List Rect → Prop
  | [] => True
  | a :: rest => validate_area a rest = true ∧ areas_consistent rest

/-! Theorems. -/

theorem rejected_error {α : Type} (e : ApiError) :
    rejected (α := α) (Except.error e) := ⟨e, rfl⟩

theorem not_rejected_ok {α : Type} (x : α) :
    ¬ rejected (Except.ok x) := by
  rintro ⟨e, h⟩
  exact Except.noConfusion h

/-- C9: for a DEAD animal, `add_animal_location` rejects with the
"animal is dead" BadRequest for every location id, every location store and
every sighting store — including a location id that names no stored
Location, because the dead check precedes `Location.get`. -/
theorem add_sighting_dead_guard (locations : List Location)
    (visited : List AnimalVisitedLocation) (animal : Animal)
    (location_id fresh_id : Nat)
    (h : animal.life_status = AnimalLifeStatus.DEAD) :
    add_animal_location locations visited animal location_id fresh_id =
      Except.error (ApiError.badRequest "animal is dead") := by
  simp [add_animal_location, h]

theorem add_sighting_dead_guard_witness :
    add_animal_location [] []
      ⟨10, 1, 1, 1, AnimalGender.MALE, AnimalLifeStatus.DEAD, 1, 5, 0, none⟩
      99 1 =
      Except.error (ApiError.badRequest "animal is dead") :=
  add_sighting_dead_guard [] [] _ 99 1 rfl

/-- C1: given a resolvable location, `add_animal_location` rejects exactly
when the animal is dead ("animal is dead"), the trail is empty and the
location is the chipping location ("repeating chipping location"), or the
trail is non-empty and the location repeats the last trail entry
("repeating location"); otherwise it creates exactly one new sighting,
appended after all existing trail entries, and returns it. -/
theorem add_sighting_characterization (locations : List Location)
    (visited : List AnimalVisitedLocation) (animal : Animal)
    (location_id fresh_id : Nat) (loc : Location)
    (hloc : locations.find? (fun l => l.id == location_id) = some loc) :
    (animal.life_status = AnimalLifeStatus.DEAD →
      add_animal_location locations visited animal location_id fresh_id =
        Except.error (ApiError.badRequest "animal is dead")) ∧
    (animal.life_status ≠ AnimalLifeStatus.DEAD →
      trailOf visited animal.id = [] →
      loc.id = animal.chipping_location_id →
      add_animal_location locations visited animal location_id fresh_id =
        Except.error (ApiError.badRequest "repeating chipping location")) ∧
    (animal.life_status ≠ AnimalLifeStatus.DEAD →
      (trailOf visited animal.id).getLast?.map
        (fun v => v.location_point_id) = some location_id →
      add_animal_location locations visited animal location_id fresh_id =
        Except.error (ApiError.badRequest "repeating location")) ∧
    (rejected (add_animal_location locations visited animal location_id
        fresh_id) ↔
      (animal.life_status = AnimalLifeStatus.DEAD ∨
       (trailOf visited animal.id = [] ∧
         loc.id = animal.chipping_location_id) ∨
       (trailOf visited animal.id).getLast?.map
         (fun v => v.location_point_id) = some location_id)) ∧
    (animal.life_status ≠ AnimalLifeStatus.DEAD →
      ¬ (trailOf visited animal.id = [] ∧
        loc.id = animal.chipping_location_id) →
      (trailOf visited animal.id).getLast?.map
        (fun v => v.location_point_id) ≠ some location_id →
      add_animal_location locations visited animal location_id fresh_id =
        Except.ok (visited ++ [⟨fresh_id, animal.id, location_id⟩],
          ⟨fresh_id, animal.id, location_id⟩) ∧
      trailOf (visited ++ [⟨fresh_id, animal.id, location_id⟩]) animal.id =
        trailOf visited animal.id ++ [⟨fresh_id, animal.id, location_id⟩]) := by
  refine ⟨?_, ?_, ?_, ?_, ?_⟩
  · intro hd
    simp [add_animal_location, hd]
  · intro hd hempty hchip
    simp [add_animal_location, hd, hloc, hempty, hchip]
  · intro hd hlast
    have hne : trailOf visited animal.id ≠ [] := by
      intro h0
      rw [h0] at hlast
      simp at hlast
    simp [add_animal_location, hd, hloc, hlast, hne,
      List.length_eq_zero, List.length_pos]
  · by_cases hd : animal.life_status = AnimalLifeStatus.DEAD
    · simp [add_animal_location, hd, rejected_error]
    · by_cases hempty : trailOf visited animal.id = [] ∧
        loc.id = animal.chipping_location_id
      · simp [add_animal_location, hd, hloc, hempty.1, hempty.2,
          rejected_error]
      · by_cases hlast : (trailOf visited animal.id).getLast?.map
            (fun v => v.location_point_id) = some location_id
        · have hne : trailOf visited animal.id ≠ [] := by
            intro h0
            rw [h0] at hlast
            simp at hlast
          simp [add_animal_location, hd, hloc, hlast, hne,
            List.length_eq_zero, List.length_pos, rejected_error]
        · simp only [add_animal_location, hloc]
          simp only [List.length_eq_zero, List.length_pos]
          rw [if_neg hd, if_neg hempty, if_neg (by
            intro hc
            exact hlast hc.2)]
          simp [hd, hempty, hlast, not_rejected_ok]
  · intro hd hempty hlast
    constructor
    · simp only [add_animal_location, hloc]
      simp only [List.length_eq_zero, List.length_pos]
      rw [if_neg hd, if_neg hempty, if_neg (by
        intro hc
        exact hlast hc.2)]
    · simp [trailOf, List.filter_append]

theorem add_sighting_characterization_witness :
    add_animal_location [⟨5⟩] []
      ⟨10, 1, 1, 1, AnimalGender.MALE, AnimalLifeStatus.ALIVE, 1, 7, 0, none⟩
      5 1 =
      Except.ok ([⟨1, 10, 5⟩], ⟨1, 10, 5⟩) ∧
    trailOf [⟨1, 10, 5⟩] 10 = trailOf [] 10 ++ [⟨1, 10, 5⟩] :=
  (add_sighting_characterization [⟨5⟩] [] _ 5 1 ⟨5⟩ rfl).2.2.2.2
    (by decide) (by decide) (by decide)

/-- C2: when the targeted sighting belongs to the animal, the delete always
succeeds and removes the target; exactly when the oldest-first trail has a
second entry, the target is the oldest entry and the second entry sits at
the chipping location, the second entry is removed as well; no other store
row is removed (membership characterization of the resulting store). -/
theorem delete_sighting_characterization
    (visited : List AnimalVisitedLocation) (animal : Animal)
    (location_id : Nat) (target : AnimalVisitedLocation)
    (hfind : visited.find? (fun v => v.id == location_id) = some target)
    (howner : target.animal_id = animal.id) :
    (∀ v1, (trailOf visited animal.id).get? 1 = some v1 →
      ((trailOf visited animal.id).get? 0).map (fun v => v.id) =
        some location_id →
      animal.chipping_location_id = v1.location_point_id →
      delete_animal_location visited animal location_id =
        Except.ok (deleteById (deleteById visited v1.id) location_id,
          [v1.id, location_id]) ∧
      ∀ w, w ∈ deleteById (deleteById visited v1.id) location_id ↔
        (w ∈ visited ∧ w.id ≠ v1.id ∧ w.id ≠ location_id)) ∧
    ((¬ ∃ v1, (trailOf visited animal.id).get? 1 = some v1 ∧
        ((trailOf visited animal.id).get? 0).map (fun v => v.id) =
          some location_id ∧
        animal.chipping_location_id = v1.location_point_id) →
      delete_animal_location visited animal location_id =
        Except.ok (deleteById visited location_id, [location_id]) ∧
      ∀ w, w ∈ deleteById visited location_id ↔
        (w ∈ visited ∧ w.id ≠ location_id)) := by
  have hmem : ∀ (store : List AnimalVisitedLocation) (k : Nat) (w),
      w ∈ deleteById store k ↔ (w ∈ store ∧ w.id ≠ k) := by
    intro store k w
    simp [deleteById, List.mem_filter]
  rcases hT : trailOf visited animal.id with _ | ⟨v0, _ | ⟨v1, rest⟩⟩
  · constructor
    · intro v1 h1
      simp at h1
    · intro _
      refine ⟨?_, fun w => hmem visited location_id w⟩
      simp [delete_animal_location, hfind, howner, hT]
  · constructor
    · intro v1 h1
      simp at h1
    · intro _
      refine ⟨?_, fun w => hmem visited location_id w⟩
      simp [delete_animal_location, hfind, howner, hT]
  · by_cases hc : location_id = v0.id ∧
      animal.chipping_location_id = v1.location_point_id
    · constructor
      · intro v1h h1 h0 hchip
        simp only [List.get?_cons_succ, List.get?_cons_zero,
          Option.some_inj] at h1
        cases h1
        refine ⟨?_, ?_⟩
        · simp only [delete_animal_location, hfind]
          rw [if_neg (by simp [howner]), hT]
          simp [hc.1, hc.2]
        · intro w
          rw [hmem, hmem]
          tauto
      · intro hnc
        exfalso
        refine hnc ⟨v1, rfl, ?_, hc.2⟩
        simp [← hc.1]
    · constructor
      · intro v1h h1 h0 hchip
        exfalso
        simp only [List.get?_cons_succ, List.get?_cons_zero,
          Option.some_inj] at h1
        cases h1
        simp at h0
        exact hc ⟨h0.symm, hchip⟩
      · intro _
        refine ⟨?_, fun w => hmem visited location_id w⟩
        simp only [delete_animal_location, hfind]
        rw [if_neg (by simp [howner]), hT]
        simp [hc]

theorem delete_sighting_characterization_witness :
    delete_animal_location [⟨1, 10, 100⟩, ⟨2, 10, 55⟩, ⟨3, 10, 200⟩]
      ⟨10, 1, 1, 1, AnimalGender.MALE, AnimalLifeStatus.ALIVE, 1, 55, 0, none⟩
      1 =
      Except.ok ([⟨3, 10, 200⟩], [2, 1]) :=
  ((delete_sighting_characterization
    [⟨1, 10, 100⟩, ⟨2, 10, 55⟩, ⟨3, 10, 200⟩]
    ⟨10, 1, 1, 1, AnimalGender.MALE, AnimalLifeStatus.ALIVE, 1, 55, 0, none⟩
    1 ⟨1, 10, 100⟩ rfl rfl).1
    ⟨2, 10, 55⟩ rfl rfl rfl).1

/-- C3: with the new location resolvable and the target sighting found in
the store, the update rejects exactly when the new location equals the
sighting's current location, the sighting does not belong to the animal,
the sighting is the oldest trail entry and the new location is the chipping
location, the previous trail entry repeats the new location, or the next
trail entry repeats the new location; otherwise it rewrites exactly the
targeted row's location and returns the updated sighting. -/
theorem update_sighting_characterization (locations : List Location)
    (visited : List AnimalVisitedLocation) (animal : Animal)
    (upd : UpdateVisitedLocation) (new_location : Location)
    (target : AnimalVisitedLocation)
    (hloc : locations.find? (fun l => l.id == upd.location_point_id) =
      some new_location)
    (hfind : visited.find? (fun v => v.id == upd.visited_location_point_id) =
      some target) :
    (rejected (update_animal_location locations visited animal upd) ↔
      (new_location.id = target.location_point_id ∨
       target.animal_id ≠ animal.id ∨
       (((trailOf visited animal.id).get? 0).map (fun v => v.id) =
           some target.id ∧
         new_location.id = animal.chipping_location_id) ∨
       (0 < (trailOf visited animal.id).findIdx
           (fun v => v.id == target.id) ∧
         ((trailOf visited animal.id).get?
           ((trailOf visited animal.id).findIdx
             (fun v => v.id == target.id) - 1)).map
           (fun v => v.location_point_id) = some new_location.id) ∨
       ((trailOf visited animal.id).findIdx (fun v => v.id == target.id) <
           (trailOf visited animal.id).length - 1 ∧
         ((trailOf visited animal.id).get?
           ((trailOf visited animal.id).findIdx
             (fun v => v.id == target.id) + 1)).map
           (fun v => v.location_point_id) = some new_location.id))) ∧
    (¬ (new_location.id = target.location_point_id ∨
       target.animal_id ≠ animal.id ∨
       (((trailOf visited animal.id).get? 0).map (fun v => v.id) =
           some target.id ∧
         new_location.id = animal.chipping_location_id) ∨
       (0 < (trailOf visited animal.id).findIdx
           (fun v => v.id == target.id) ∧
         ((trailOf visited animal.id).get?
           ((trailOf visited animal.id).findIdx
             (fun v => v.id == target.id) - 1)).map
           (fun v => v.location_point_id) = some new_location.id) ∨
       ((trailOf visited animal.id).findIdx (fun v => v.id == target.id) <
           (trailOf visited animal.id).length - 1 ∧
         ((trailOf visited animal.id).get?
           ((trailOf visited animal.id).findIdx
             (fun v => v.id == target.id) + 1)).map
           (fun v => v.location_point_id) = some new_location.id)) →
      update_animal_location locations visited animal upd =
        Except.ok (visited.map (fun v =>
          if v.id = target.id then
            { v with location_point_id := new_location.id }
          else v),
          { target with location_point_id := new_location.id })) := by
  have htmem : target ∈ visited := List.mem_of_find?_eq_some hfind
  by_cases hD2 : target.animal_id ≠ animal.id
  · by_cases hD1 : new_location.id = target.location_point_id
    · have hR : update_animal_location locations visited animal upd =
          Except.error (ApiError.badRequest "same location") := by
        simp [update_animal_location, hloc, hfind, hD1]
      constructor
      · rw [hR]
        exact ⟨fun _ => Or.inl hD1, fun _ => rejected_error _⟩
      · intro hnd
        exact absurd (Or.inr (Or.inl hD2)) hnd
    · have hR : update_animal_location locations visited animal upd =
          Except.error ApiError.notFound := by
        simp [update_animal_location, hloc, hfind, hD1, hD2]
      constructor
      · rw [hR]
        exact ⟨fun _ => Or.inr (Or.inl hD2), fun _ => rejected_error _⟩
      · intro hnd
        exact absurd (Or.inr (Or.inl hD2)) hnd
  · push_neg at hD2
    have hsmem : target ∈ trailOf visited animal.id := by
      simp [trailOf, List.mem_filter, htmem, hD2]
    obtain ⟨s0, rest, hS⟩ :
        ∃ s0 rest, trailOf visited animal.id = s0 :: rest := by
      cases hq : trailOf visited animal.id with
      | nil =>
        rw [hq] at hsmem
        simp at hsmem
      | cons a l => exact ⟨a, l, rfl⟩
    by_cases hD1 : new_location.id = target.location_point_id
    · have hR : update_animal_location locations visited animal upd =
          Except.error (ApiError.badRequest "same location") := by
        simp [update_animal_location, hloc, hfind, hD1]
      constructor
      · rw [hR]
        exact ⟨fun _ => Or.inl hD1, fun _ => rejected_error _⟩
      · intro hnd
        exact absurd (Or.inl hD1) hnd
    · have hch3 : ¬(target.location_point_id = new_location.id) :=
        fun h => hD1 h.symm
      have hD3iff :
          (((trailOf visited animal.id).get? 0).map (fun v => v.id) =
              some target.id ∧
            new_location.id = animal.chipping_location_id) ↔
          (s0.id = target.id ∧
            new_location.id = animal.chipping_location_id) := by
        rw [hS]
        simp
      by_cases hD3c : s0.id = target.id ∧
          new_location.id = animal.chipping_location_id
      · have hR : update_animal_location locations visited animal upd =
            Except.error (ApiError.badRequest "") := by
          simp only [update_animal_location, hloc, hfind, hS]
          rw [if_neg hD1, if_neg (not_not_intro hD2), if_neg hch3,
            if_pos hD3c]
        constructor
        · rw [hR]
          exact ⟨fun _ => Or.inr (Or.inr (Or.inl (hD3iff.mpr hD3c))),
            fun _ => rejected_error _⟩
        · intro hnd
          exact absurd (Or.inr (Or.inr (Or.inl (hD3iff.mpr hD3c)))) hnd
      · by_cases hD4 : 0 < (trailOf visited animal.id).findIdx
            (fun v => v.id == target.id) ∧
            ((trailOf visited animal.id).get?
              ((trailOf visited animal.id).findIdx
                (fun v => v.id == target.id) - 1)).map
              (fun v => v.location_point_id) = some new_location.id
        · have hD4' := hD4
          rw [hS] at hD4'
          have hR : update_animal_location locations visited animal upd =
              Except.error (ApiError.badRequest
                "repeating location with the previous one") := by
            simp only [update_animal_location, hloc, hfind, hS]
            rw [if_neg hD1, if_neg (not_not_intro hD2), if_neg hch3,
              if_neg hD3c, if_pos hD4']
          constructor
          · rw [hR]
            exact ⟨fun _ => Or.inr (Or.inr (Or.inr (Or.inl hD4))),
              fun _ => rejected_error _⟩
          · intro hnd
            exact absurd (Or.inr (Or.inr (Or.inr (Or.inl hD4)))) hnd
        · by_cases hD5 : (trailOf visited animal.id).findIdx
              (fun v => v.id == target.id) <
              (trailOf visited animal.id).length - 1 ∧
              ((trailOf visited animal.id).get?
                ((trailOf visited animal.id).findIdx
                  (fun v => v.id == target.id) + 1)).map
                (fun v => v.location_point_id) = some new_location.id
          · have hD5' := hD5
            rw [hS] at hD5'
            have hD4' := hD4
            rw [hS] at hD4'
            have hR : update_animal_location locations visited animal upd =
                Except.error (ApiError.badRequest
                  "repeating location with the next one") := by
              simp only [update_animal_location, hloc, hfind, hS]
              rw [if_neg hD1, if_neg (not_not_intro hD2), if_neg hch3,
                if_neg hD3c, if_neg hD4', if_pos hD5']
            constructor
            · rw [hR]
              exact ⟨fun _ => Or.inr (Or.inr (Or.inr (Or.inr hD5))),
                fun _ => rejected_error _⟩
            · intro hnd
              exact absurd (Or.inr (Or.inr (Or.inr (Or.inr hD5)))) hnd
          · have hD4' := hD4
            rw [hS] at hD4'
            have hD5' := hD5
            rw [hS] at hD5'
            have hR : update_animal_location locations visited animal upd =
                Except.ok (visited.map (fun v =>
                  if v.id = target.id then
                    { v with location_point_id := new_location.id }
                  else v),
                  { target with location_point_id := new_location.id }) := by
              simp only [update_animal_location, hloc, hfind, hS]
              rw [if_neg hD1, if_neg (not_not_intro hD2), if_neg hch3,
                if_neg hD3c, if_neg hD4', if_neg hD5']
            constructor
            · rw [hR]
              constructor
              · intro h
                exact absurd h (not_rejected_ok _)
              · intro h
                rcases h with h | h | h | h | h
                · exact absurd h hD1
                · exact absurd hD2 h
                · exact absurd (hD3iff.mp h) hD3c
                · exact absurd h hD4
                · exact absurd h hD5
            · intro _
              exact hR

theorem update_sighting_characterization_witness :
    update_animal_location [⟨400⟩]
      [⟨1, 10, 100⟩, ⟨2, 10, 200⟩, ⟨3, 10, 300⟩]
      ⟨10, 1, 1, 1, AnimalGender.MALE, AnimalLifeStatus.ALIVE, 1, 50, 0, none⟩
      ⟨2, 400⟩ =
      Except.ok ([⟨1, 10, 100⟩, ⟨2, 10, 400⟩, ⟨3, 10, 300⟩],
        ⟨2, 10, 400⟩) :=
  (update_sighting_characterization [⟨400⟩]
    [⟨1, 10, 100⟩, ⟨2, 10, 200⟩, ⟨3, 10, 300⟩]
    ⟨10, 1, 1, 1, AnimalGender.MALE, AnimalLifeStatus.ALIVE, 1, 50, 0, none⟩
    ⟨2, 400⟩ ⟨400⟩ ⟨2, 10, 200⟩ rfl rfl).2 (by decide)

/-- C4: a DEAD animal rejects any update back to ALIVE; a successful update
whose payload carries DEAD while the death timestamp is unset stamps the
current time; a successful update of an already-DEAD animal never changes
the stored death timestamp. -/
theorem update_animal_death_invariants (locations : List Location)
    (accounts : List Nat) (visited : List AnimalVisitedLocation)
    (animal : Animal) (new_animal : UpdateAnimal) (now : Nat) :
    (animal.life_status = AnimalLifeStatus.DEAD →
      new_animal.life_status = AnimalLifeStatus.ALIVE →
      update_animal locations accounts visited animal new_animal now =
        Except.error (ApiError.badRequest "animal is dead")) ∧
    (∀ a2, update_animal locations accounts visited animal new_animal now =
        Except.ok a2 →
      (new_animal.life_status = AnimalLifeStatus.DEAD →
        animal.death_date_time = none →
        a2.death_date_time = some now) ∧
      (∀ t, animal.life_status = AnimalLifeStatus.DEAD →
        animal.death_date_time = some t →
        a2.death_date_time = some t)) := by
  constructor
  · intro h1 h2
    simp [update_animal, h1, h2]
  · intro a2 hok
    simp only [update_animal] at hok
    by_cases h1 : animal.life_status = AnimalLifeStatus.DEAD ∧
        new_animal.life_status = AnimalLifeStatus.ALIVE
    · rw [if_pos h1] at hok
      exact absurd hok (by simp)
    rw [if_neg h1] at hok
    by_cases h2 : (trailOf visited animal.id).head?.map
        (fun v => v.location_point_id) = some new_animal.chipping_location_id
    · rw [if_pos h2] at hok
      exact absurd hok (by simp)
    rw [if_neg h2] at hok
    by_cases h3 : (locations.find?
        (fun l => l.id == new_animal.chipping_location_id)).isNone = true
    · rw [if_pos h3] at hok
      exact absurd hok (by simp)
    rw [if_neg h3] at hok
    by_cases h4 : accounts.contains new_animal.chipper_id = true
    · rw [if_neg (not_not_intro h4)] at hok
      injection hok with h5
      subst h5
      constructor
      · intro hdead hnone
        rw [if_pos ⟨by simp [hdead], by simp [hnone]⟩]
      · intro t hdead2 hsome
        rw [if_neg (by simp [hsome])]
        simp [hsome]
    · rw [if_pos h4] at hok
      exact absurd hok (by simp)

theorem update_animal_death_invariants_witness :
    update_animal [⟨5⟩] [1] []
      ⟨10, 1, 1, 1, AnimalGender.MALE, AnimalLifeStatus.ALIVE, 1, 7, 0, none⟩
      ⟨2, 2, 2, AnimalGender.FEMALE, AnimalLifeStatus.DEAD, 1, 5⟩ 42 =
      Except.ok
        ⟨10, 2, 2, 2, AnimalGender.FEMALE, AnimalLifeStatus.DEAD, 1, 5, 0,
          some 42⟩ ∧
    (⟨10, 2, 2, 2, AnimalGender.FEMALE, AnimalLifeStatus.DEAD, 1, 5, 0,
      some 42⟩ : Animal).death_date_time = some 42 :=
  ⟨rfl,
    ((update_animal_death_invariants [⟨5⟩] [1] []
      ⟨10, 1, 1, 1, AnimalGender.MALE, AnimalLifeStatus.ALIVE, 1, 7, 0, none⟩
      ⟨2, 2, 2, AnimalGender.FEMALE, AnimalLifeStatus.DEAD, 1, 5⟩ 42).2
      ⟨10, 2, 2, 2, AnimalGender.FEMALE, AnimalLifeStatus.DEAD, 1, 5, 0,
        some 42⟩ rfl).1 rfl rfl⟩

theorem getLast?_cons_getD {α β : Type} (f : α → β) (q : α)
    (qs : List α) (d1 d2 : β) :
    ((q :: qs).getLast?.map f).getD d1 = ((q :: qs).getLast?.map f).getD d2 := by
  induction qs generalizing q with
  | nil => rfl
  | cons r rs ih =>
    rw [List.getLast?_cons_cons]
    exact ih r

theorem get_analytics_loop_spec
    (pairs : List (VisitedLocationInfo × VisitedLocationInfo))
    (a b c : Bool) :
    pairs.foldl get_analytics_step (a, b, c) =
      ((pairs.getLast?.map (fun p => p.2.is_in_area)).getD a,
       b || pairs.any (fun p => p.2.is_in_area && p.2.is_in_dates),
       c || pairs.any (fun p =>
         p.1.is_in_area && !p.2.is_in_area && p.2.is_in_dates)) := by
  induction pairs generalizing a b c with
  | nil => simp
  | cons p ps ih =>
    simp only [List.foldl_cons]
    rw [ih]
    cases ps with
    | nil =>
      cases hA : p.2.is_in_area <;> cases hD : p.2.is_in_dates <;>
        cases hF : p.1.is_in_area <;>
          simp [get_analytics_step, hA, hD, hF]
    | cons q qs =>
      cases hA : p.2.is_in_area <;> cases hD : p.2.is_in_dates <;>
        cases hF : p.1.is_in_area <;>
          (simp [get_analytics_step, hA, hD, hF, List.getLast?_cons_cons,
            Bool.or_assoc, Bool.or_comm, Bool.or_left_comm]) <;>
          exact getLast?_cons_getD (fun p => p.2.is_in_area) q qs _ _

theorem zip_snd_getLast {β : Type} (f : VisitedLocationInfo → β)
    (x y : VisitedLocationInfo) (ys : List VisitedLocationInfo) :
    ((x :: y :: ys).zip (y :: ys)).getLast?.map (fun p => f p.2) =
      ((y :: ys).getLast?).map f := by
  induction ys generalizing x y with
  | nil => rfl
  | cons z zs ih =>
    have h2 : ((x :: y :: z :: zs).zip (y :: z :: zs)) =
        (x, y) :: ((y :: z :: zs).zip (z :: zs)) := rfl
    have h3 : ((y :: z :: zs).zip (z :: zs)) =
        (y, z) :: ((z :: zs).zip zs) := rfl
    rw [h2, h3, List.getLast?_cons_cons, ← h3, ih y z,
      List.getLast?_cons_cons]

/-- C5: on a non-empty position-info sequence, `get_analytics` returns the
last position's in-area flag as the occupancy bit, the arrival bit exactly
when some adjacent pair ends in-area and in-window, and the departure bit
exactly when some adjacent pair leaves the area with the later position
in-window. -/
theorem analytics_reduction_characterization
    (vli : List VisitedLocationInfo) (h : vli ≠ []) :
    (get_analytics vli).1 = (vli.getLast h).is_in_area ∧
    ((get_analytics vli).2.1 = true ↔
      ∃ p ∈ vli.zip vli.tail,
        p.2.is_in_area = true ∧ p.2.is_in_dates = true) ∧
    ((get_analytics vli).2.2 = true ↔
      ∃ p ∈ vli.zip vli.tail,
        p.1.is_in_area = true ∧ p.2.is_in_area = false ∧
        p.2.is_in_dates = true) := by
  cases vli with
  | nil => exact absurd rfl h
  | cons x xs =>
    unfold get_analytics
    rw [get_analytics_loop_spec]
    refine ⟨?_, ?_, ?_⟩
    · cases xs with
      | nil => simp
      | cons y ys =>
        simp only [List.tail_cons, List.head?_cons, Option.map_some',
          Option.getD_some]
        rw [zip_snd_getLast (fun v => v.is_in_area) x y ys]
        rw [List.getLast?_eq_getLast_of_ne_nil
          (show (y :: ys) ≠ [] by simp)]
        simp [List.getLast_cons]
    · simp [List.any_eq_true, Bool.and_eq_true]
    · simp only [List.tail_cons]
      rw [Bool.false_or, List.any_eq_true]
      constructor
      · rintro ⟨p, hp, hpred⟩
        refine ⟨p, hp, ?_⟩
        simp only [Bool.and_eq_true, Bool.not_eq_true'] at hpred
        exact ⟨hpred.1.1, hpred.1.2, hpred.2⟩
      · rintro ⟨p, hp, h1, h2, h3⟩
        exact ⟨p, hp, by simp [h1, h2, h3]⟩

theorem analytics_reduction_characterization_witness :
    (get_analytics [⟨false, true⟩, ⟨true, false⟩]).1 =
      (([⟨false, true⟩, ⟨true, false⟩] :
        List VisitedLocationInfo).getLast (by decide)).is_in_area :=
  (analytics_reduction_characterization
    [⟨false, true⟩, ⟨true, false⟩] (by decide)).1

theorem zip_tail_mem (v x : VisitedLocationInfo)
    (xs : List VisitedLocationInfo) (hv : v ∈ xs) :
    ∃ u, (u, v) ∈ (x :: xs).zip xs := by
  induction xs generalizing x with
  | nil => cases hv
  | cons y ys ih =>
    rcases List.mem_cons.mp hv with rfl | hv2
    · exact ⟨x, List.mem_cons_self _ _⟩
    · obtain ⟨u, hu⟩ := ih y hv2
      exact ⟨u, List.mem_cons_of_mem _ hu⟩

/-- C10: the arrival bit needs no prior out-of-area position: if every
position of a non-empty sequence is in-area and some position after the
first is inside the date window, `get_analytics` reports an arrival. -/
theorem arrived_without_prior_outside (vli : List VisitedLocationInfo)
    (h : vli ≠ [])
    (hall : ∀ v ∈ vli, v.is_in_area = true)
    (hdates : ∃ v ∈ vli.tail, v.is_in_dates = true) :
    (get_analytics vli).2.1 = true := by
  cases vli with
  | nil => exact absurd rfl h
  | cons x xs =>
    obtain ⟨v, hv, hvd⟩ := hdates
    simp only [List.tail_cons] at hv
    obtain ⟨u, hu⟩ := zip_tail_mem v x xs hv
    have hva : v.is_in_area = true := hall v (List.mem_cons_of_mem x hv)
    unfold get_analytics
    rw [get_analytics_loop_spec]
    simp only [Bool.false_or, List.any_eq_true]
    exact ⟨(u, v), hu, by simp [hva, hvd]⟩

theorem arrived_without_prior_outside_witness :
    (get_analytics [⟨false, true⟩, ⟨true, true⟩]).2.1 = true :=
  arrived_without_prior_outside [⟨false, true⟩, ⟨true, true⟩]
    (by decide) (by decide)
    ⟨⟨true, true⟩, by simp, rfl⟩

/-- C6 counterexample: an animal chipped inside the area whose single
sighting is outside the area and dated before the start of the window is a
candidate, contributes zero to occupancy, arrivals and departures, and yet
its type is reported in the breakdown with all three counters zero. -/
theorem analytics_zero_count_type_reported :
    is_candidate ⟨1, 0, [⟨7, "FOX"⟩], [⟨2, 5⟩]⟩ none [1] = true ∧
    (get_area_analytics [⟨1, 0, [⟨7, "FOX"⟩], [⟨2, 5⟩]⟩]
      (some 10) none [1]).animals_analytics = [⟨"FOX", 7, 0, 0, 0⟩] :=
  ⟨rfl, rfl⟩

theorem bump_type_key_eq (m : List AnimalTypeAnalytics) (tid : Nat)
    (b1 b2 b3 : Bool) :
    (bump_type m tid b1 b2 b3).map (fun e => e.animal_type_id) =
      m.map (fun e => e.animal_type_id) := by
  unfold bump_type
  rw [List.map_map]
  apply List.map_congr_left
  intro a _
  by_cases h : a.animal_type_id = tid <;> simp [h]

theorem add_type_stats_keys (m : List AnimalTypeAnalytics)
    (t : AnimalType) (k : Nat) :
    k ∈ (add_type_stats m t).map (fun e => e.animal_type_id) ↔
    (k ∈ m.map (fun e => e.animal_type_id) ∨ t.id = k) := by
  unfold add_type_stats
  by_cases h : m.any (fun e => e.animal_type_id == t.id) = true
  · rw [if_pos h]
    constructor
    · exact Or.inl
    · rintro (hk | rfl)
      · exact hk
      · obtain ⟨e, he, hpred⟩ := List.any_eq_true.mp h
        rw [beq_iff_eq] at hpred
        exact List.mem_map.mpr ⟨e, he, hpred⟩
  · rw [if_neg h]
    simp [List.map_append, List.mem_append, eq_comm]

theorem types_fold_keys (ts : List AnimalType)
    (m : List AnimalTypeAnalytics) (b1 b2 b3 : Bool) (k : Nat) :
    k ∈ (ts.foldl (fun m t => bump_type (add_type_stats m t) t.id b1 b2 b3)
        m).map (fun e => e.animal_type_id) ↔
    (k ∈ m.map (fun e => e.animal_type_id) ∨ ∃ t ∈ ts, t.id = k) := by
  induction ts generalizing m with
  | nil => simp
  | cons t ts ih =>
    simp only [List.foldl_cons]
    rw [ih, bump_type_key_eq, add_type_stats_keys]
    simp only [List.mem_cons]
    constructor
    · rintro ((hk | hk) | ⟨u, hu, hk⟩)
      · exact Or.inl hk
      · exact Or.inr ⟨t, Or.inl rfl, hk⟩
      · exact Or.inr ⟨u, Or.inr hu, hk⟩
    · rintro (hk | ⟨u, hu | hu, hk⟩)
      · exact Or.inl (Or.inl hk)
      · subst hu
        exact Or.inl (Or.inr hk)
      · exact Or.inr ⟨u, hu, hk⟩

theorem analytics_fold_keys (animals : List AnalyticsAnimal)
    (sd ed : Option Nat) (area : List Nat)
    (st : AreaAnalytics × List AnimalTypeAnalytics) (k : Nat) :
    k ∈ ((animals.foldl (analytics_animal_step sd ed area) st).2).map
        (fun e => e.animal_type_id) ↔
    (k ∈ st.2.map (fun e => e.animal_type_id) ∨
      ∃ a ∈ animals, ∃ t ∈ a.animal_types, t.id = k) := by
  induction animals generalizing st with
  | nil => simp
  | cons a as ih =>
    simp only [List.foldl_cons]
    rw [ih]
    simp only [analytics_animal_step]
    rw [types_fold_keys]
    simp only [List.mem_cons]
    constructor
    · rintro ((hk | hk) | ⟨u, hu, v, hv, hk⟩)
      · exact Or.inl hk
      · obtain ⟨v, hv, hk⟩ := hk
        exact Or.inr ⟨a, Or.inl rfl, v, hv, hk⟩
      · exact Or.inr ⟨u, Or.inr hu, v, hv, hk⟩
    · rintro (hk | ⟨u, hu | hu, v, hv, hk⟩)
      · exact Or.inl (Or.inl hk)
      · subst hu
        exact Or.inl (Or.inr ⟨v, hv, hk⟩)
      · exact Or.inr ⟨u, hu, v, hv, hk⟩

/-- C6 amended: the breakdown lists exactly the animal types of the
processed candidate animals — one entry per type id that occurs on some
candidate animal — with no nonzero-counter filtering. -/
theorem analytics_breakdown_membership (animals : List AnalyticsAnimal)
    (sd ed : Option Nat) (area : List Nat) (k : Nat) :
    (∃ e ∈ (get_area_analytics animals sd ed area).animals_analytics,
      e.animal_type_id = k) ↔
    (∃ a ∈ animals, ∃ t ∈ a.animal_types, t.id = k) := by
  have hval : (get_area_analytics animals sd ed area).animals_analytics =
      (animals.foldl (analytics_animal_step sd ed area)
        (⟨0, 0, 0, []⟩, [])).2 := rfl
  rw [hval, ← List.mem_map, analytics_fold_keys]
  simp

theorem analytics_breakdown_membership_witness :
    (∃ e ∈ (get_area_analytics [⟨1, 0, [⟨7, "FOX"⟩], [⟨2, 5⟩]⟩]
        (some 10) none [1]).animals_analytics, e.animal_type_id = 7) ↔
    (∃ a ∈ [(⟨1, 0, [⟨7, "FOX"⟩], [⟨2, 5⟩]⟩ : AnalyticsAnimal)],
      ∃ t ∈ a.animal_types, t.id = 7) :=
  analytics_breakdown_membership [⟨1, 0, [⟨7, "FOX"⟩], [⟨2, 5⟩]⟩]
    (some 10) none [1] 7

/-- C7 counterexample: one cascade-delete invocation issues two store
deletions (rows 2 and 1), exceeding the claimed at-most-one mutation. -/
theorem delete_cascade_two_mutations :
    delete_animal_location [⟨1, 10, 100⟩, ⟨2, 10, 55⟩]
      ⟨10, 1, 1, 1, AnimalGender.MALE, AnimalLifeStatus.ALIVE, 1, 55, 0, none⟩
      1 = Except.ok ([], [2, 1]) ∧ 1 < ([2, 1] : List Nat).length :=
  ⟨rfl, by decide⟩

/-- C7 amended: rejected calls mutate nothing (the embedding returns an
error before any store change); a successful delete issues one deletion, or
exactly two in the cascade case, never more; the type-replacement update
issues exactly two membership mutations (one remove, one add). -/
theorem mutation_count_bounds :
    (∀ (visited : List AnimalVisitedLocation) (animal : Animal)
      (location_id : Nat) (st : List AnimalVisitedLocation) (ds : List Nat),
      delete_animal_location visited animal location_id =
        Except.ok (st, ds) →
      ds.length ≤ 2 ∧
      (ds = [location_id] ∨
        ∃ v1, (trailOf visited animal.id).get? 1 = some v1 ∧
          ((trailOf visited animal.id).get? 0).map (fun v => v.id) =
            some location_id ∧
          animal.chipping_location_id = v1.location_point_id ∧
          ds = [v1.id, location_id])) ∧
    (∀ (all_types : List AnimalType) (animal_types : List Nat)
      (old_type_id new_type_id : Nat) (res : List Nat) (n : Nat),
      update_animal_type all_types animal_types old_type_id new_type_id =
        Except.ok (res, n) → n = 2) := by
  constructor
  · intro visited animal location_id st ds h
    unfold delete_animal_location at h
    split at h
    · exact absurd h (by simp)
    · split at h
      · exact absurd h (by simp)
      · split at h
        · rename_i v0 v1 tail hT
          split at h
          · rename_i hc
            simp only [Except.ok.injEq, Prod.mk.injEq] at h
            obtain ⟨hst, hds⟩ := h
            subst hds
            refine ⟨by simp, Or.inr ⟨v1, ?_, ?_, hc.2, rfl⟩⟩
            · rw [hT]
              rfl
            · rw [hT]
              simp [hc.1]
          · simp only [Except.ok.injEq, Prod.mk.injEq] at h
            obtain ⟨hst, hds⟩ := h
            subst hds
            exact ⟨by simp, Or.inl rfl⟩
        · simp only [Except.ok.injEq, Prod.mk.injEq] at h
          obtain ⟨hst, hds⟩ := h
          subst hds
          exact ⟨by simp, Or.inl rfl⟩
  · intro all_types animal_types old_type_id new_type_id res n h
    unfold update_animal_type at h
    split at h
    · exact absurd h (by simp)
    · split at h
      · exact absurd h (by simp)
      · split at h
        · exact absurd h (by simp)
        · simp only [Except.ok.injEq, Prod.mk.injEq] at h
          exact h.2.symm

theorem mutation_count_bounds_witness :
    ([2, 1] : List Nat).length ≤ 2 ∧ (2 : Nat) = 2 :=
  ⟨(mutation_count_bounds.1 [⟨1, 10, 100⟩, ⟨2, 10, 55⟩]
      ⟨10, 1, 1, 1, AnimalGender.MALE, AnimalLifeStatus.ALIVE, 1, 55, 0, none⟩
      1 [] [2, 1] rfl).1,
    mutation_count_bounds.2 [⟨7, "FOX"⟩, ⟨8, "WOLF"⟩] [7] 7 8 [8] 2 rfl⟩

/-- C8 counterexample: two unit squares sharing the whole edge x = 1: the
validator accepts the new square although it shares a boundary with the
stored one, so the no-shared-boundary rule is not enforced. -/
theorem area_boundary_sharing_not_rejected :
    validate_area ⟨1, 2, 0, 1⟩ [⟨0, 1, 0, 1⟩] = true ∧
    rect_shares_boundary ⟨1, 2, 0, 1⟩ ⟨0, 1, 0, 1⟩ = true := by
  decide

theorem validate_area_all_iff (a : Rect) (others : List Rect) :
    validate_area a others = true ↔
    ∀ b ∈ others, rect_equals a b = false ∧ rect_overlaps a b = false ∧
      rect_contains a b = false ∧ rect_contains b a = false := by
  unfold validate_area
  rw [List.all_eq_true]
  constructor
  · intro h b hb
    have hx := h b hb
    simp only [Bool.and_eq_true, Bool.not_eq_true'] at hx
    exact ⟨hx.1.1.1, hx.1.1.2, hx.1.2, hx.2⟩
  · intro h b hb
    obtain ⟨h1, h2, h3, h4⟩ := h b hb
    simp [h1, h2, h3, h4]

theorem rect_interiors_intersect_comm (a b : Rect) :
    rect_interiors_intersect a b = rect_interiors_intersect b a := by
  unfold rect_interiors_intersect
  rw [max_comm a.xmin, min_comm a.xmax, max_comm a.ymin, min_comm a.ymax]

theorem rect_overlaps_comm (a b : Rect) :
    rect_overlaps a b = rect_overlaps b a := by
  unfold rect_overlaps
  rw [rect_interiors_intersect_comm]
  cases h1 : rect_interiors_intersect b a <;>
    cases h2 : rect_subset a b <;> cases h3 : rect_subset b a <;>
      simp [h1, h2, h3]

theorem rect_equals_false_symm (a b : Rect)
    (h : rect_equals a b = false) : rect_equals b a = false := by
  unfold rect_equals at h ⊢
  rw [beq_eq_false_iff_ne] at h ⊢
  exact h.symm

/-- C8 amended: the validator accepts a new area exactly when its polygon
neither equals, overlaps, contains, nor is contained in any stored area's
polygon (boundary sharing alone is NOT rejected); consequently a store in
which every area was validated at write time is pairwise free of equality,
overlap and containment. -/
theorem validate_area_characterization :
    (∀ (a : Rect) (others : List Rect),
      validate_area a others = true ↔
      ∀ b ∈ others, rect_equals a b = false ∧ rect_overlaps a b = false ∧
        rect_contains a b = false ∧ rect_contains b a = false) ∧
    (∀ (l : List Rect), areas_consistent l →
      ∀ a ∈ l, ∀ b ∈ l, a ≠ b →
        rect_equals a b = false ∧ rect_overlaps a b = false ∧
        rect_contains a b = false ∧ rect_contains b a = false) := by
  constructor
  · exact fun a others => validate_area_all_iff a others
  · intro l
    induction l with
    | nil =>
      intro _ a ha
      exact absurd ha (List.not_mem_nil a)
    | cons x rest ih =>
      intro hcons a ha b hb hab
      obtain ⟨hval, hrest⟩ := hcons
      have hx := (validate_area_all_iff x rest).mp hval
      rcases List.mem_cons.mp ha with rfl | ha2
      · rcases List.mem_cons.mp hb with rfl | hb2
        · exact absurd rfl hab
        · exact hx b hb2
      · rcases List.mem_cons.mp hb with rfl | hb2
        · obtain ⟨h1, h2, h3, h4⟩ := hx a ha2
          refine ⟨rect_equals_false_symm b a h1, ?_, h4, h3⟩
          rw [rect_overlaps_comm a b]
          exact h2
        · exact ih hrest a ha2 b hb2 hab

theorem validate_area_characterization_witness :
    rect_equals (⟨0, 1, 0, 1⟩ : Rect) ⟨5, 6, 0, 1⟩ = false ∧
    rect_overlaps (⟨0, 1, 0, 1⟩ : Rect) ⟨5, 6, 0, 1⟩ = false ∧
    rect_contains (⟨0, 1, 0, 1⟩ : Rect) ⟨5, 6, 0, 1⟩ = false ∧
    rect_contains (⟨5, 6, 0, 1⟩ : Rect) ⟨0, 1, 0, 1⟩ = false :=
  validate_area_characterization.2 [⟨0, 1, 0, 1⟩, ⟨5, 6, 0, 1⟩]
    ⟨by decide, by decide, trivial⟩
    ⟨0, 1, 0, 1⟩ (by decide) ⟨5, 6, 0, 1⟩ (by decide) (by decide)
